import Mathlib

/-!
Verification of the subscription endpoints of the polar backend
(src/server/polar/subscription/endpoints.py) against its specification.

The endpoint handlers are embedded shallowly: the database is a concrete
record of entity lists, each data-store round trip is logged as an `Op`,
and a handler is a pure function returning an `Except` result together
with the ordered list of data-store operations it performed.  The service
collaborators (organization/repository lookup, tier/subscription search,
periods summary) are not part of the excerpt; they are modelled from the
specification, as noted on each definition.
-/

/-- An organization: unique by (platform, name); root of the scope
hierarchy.  Platforms are an enumeration, embedded as `Nat`. -/
structure Org where
  id : Nat
  platform : Nat
  name : String
deriving DecidableEq

/-- A repository: belongs to exactly one organization; unique by
(organization, name). -/
structure Repo where
  id : Nat
  organization_id : Nat
  name : String
deriving DecidableEq

/-- A subscription tier: belongs to an organization, optionally scoped to
a repository; has an enumerated type (embedded as `Nat`) and an archived
flag.  The `inherited` flag marks entities inherited from a parent or
default scope, as opposed to entities owned directly by the organization
(the `direct_organization` distinction of the data model). -/
structure Tier where
  id : Nat
  organization_id : Nat
  repository_id : Option Nat
  type : Nat
  is_archived : Bool
  inherited : Bool
deriving DecidableEq

/-- A subscription: links a subscriber (user) to a subscription tier, with
an active period `[startp, endp]` at period granularity and a price. -/
structure Subscription where
  id : Nat
  subscriber_user_id : Nat
  tier_id : Nat
  startp : Nat
  endp : Nat
  price : Nat
deriving DecidableEq

/-- An authenticated user, carrying the distinct id used by the
feature-flag service. -/
structure User where
  id : Nat
  posthog_distinct_id : Nat
deriving DecidableEq

/-- The persisted data snapshot a request runs against. -/
structure DB where
  orgs : List Org
  repos : List Repo
  tiers : List Tier
  subs : List Subscription

/-- The error taxonomy of the endpoint layer: `resourceNotFound` and
`badRequest` mirror `ResourceNotFound` and `BadRequest` from
polar.exceptions; `http` mirrors a raw `HTTPException` with a status
code. -/
inductive Err where
  | resourceNotFound (msg : String)
  | badRequest (msg : String)
  | http (code : Nat) (msg : String)
deriving DecidableEq

/-- A data-store round trip performed by a handler. -/
inductive Op where
  | orgLookup (platform : Nat) (name : String)
  | repoLookup (organization_id : Nat) (name : String)
  | tierSearch
  | subscriptionSearch (organization_id : Option Nat) (repository_id : Option Nat)
  | periodsSummary
deriving DecidableEq

/-- The effect of a handler: an `Except` outcome paired with the ordered
list of data-store operations issued before returning. -/
def Eff (α : Type) : Type := Except Err α × List Op

/-- Return a value, issuing no data-store operation. -/
def effPure {α : Type} (a : α) : Eff α := (Except.ok a, [])

/-- Raise an error, issuing no further data-store operation. -/
def effThrow {α : Type} (e : Err) : Eff α := (Except.error e, [])

/-- Sequencing: an error short-circuits; operation logs concatenate in
program order. -/
def effBind {α β : Type} (x : Eff α) (f : α → Eff β) : Eff β :=
  match x with
  | (Except.error e, ops) => (Except.error e, ops)
  | (Except.ok a, ops) =>
    match f a with
    | (r, ops2) => (r, ops ++ ops2)

/-- Modelled from the spec: `organization_service.get_by_name` (service
code absent from the excerpt) looks up the organization by
(platform, name), returning `none` when absent. -/
def org_lookup (db : DB) (platform : Nat) (name : String) : Option Org :=
  db.orgs.find? (fun o => o.platform == platform && o.name == name)

/-- The organization lookup as a data-store round trip. -/
def organization_get_by_name (db : DB) (platform : Nat) (name : String) :
    Eff (Option Org) :=
  (Except.ok (org_lookup db platform name), [Op.orgLookup platform name])

/-- Modelled from the spec: `repository_service.get_by_org_and_name`
(service code absent from the excerpt) looks up the repository scoped to
the given organization, returning `none` when absent or when the
repository belongs to a different organization. -/
def repo_lookup (db : DB) (organization_id : Nat) (name : String) : Option Repo :=
  db.repos.find? (fun r => r.organization_id == organization_id && r.name == name)

/-- The repository lookup as a data-store round trip. -/
def repository_get_by_org_and_name (db : DB) (organization_id : Nat)
    (name : String) : Eff (Option Repo) :=
  (Except.ok (repo_lookup db organization_id name), [Op.repoLookup organization_id name])

/-- Modelled from the spec: the filter of the tier search.  A tier matches
when it belongs to the scope organization, is scoped to the scope
repository when one is given, is not inherited when `direct_organization`
is set, matches the type filter when one is given, and — archived tiers
being visible only to owners — is not archived unless archived tiers were
requested by an owner. -/
def tier_match (actorOwner : Bool) (type : Option Nat) (organization : Org)
    (repository : Option Repo) (direct_organization : Bool)
    (include_archived : Bool) (t : Tier) : Bool :=
  t.organization_id == organization.id
    && (match repository with
        | none => true
        | some r => t.repository_id == some r.id)
    && (!direct_organization || !t.inherited)
    && (match type with
        | none => true
        | some ty => t.type == ty)
    && (!t.is_archived || (include_archived && actorOwner))

/-- The (limit, offset)-style pagination window of the search contract. -/
structure Pagination where
  limit : Nat
  offset : Nat
deriving DecidableEq

/-- Apply a pagination window to the full ordered match list. -/
def paginate {α : Type} (p : Pagination) (l : List α) : List α :=
  (l.drop p.offset).take p.limit

/-- The full ordered list of tiers matching a search, before windowing. -/
def tier_search_matching (db : DB) (actorOwner : Bool) (type : Option Nat)
    (organization : Org) (repository : Option Repo)
    (direct_organization : Bool) (include_archived : Bool) : List Tier :=
  db.tiers.filter
    (tier_match actorOwner type organization repository direct_organization
      include_archived)

/-- Modelled from the spec: `subscription_tier_service.search` (service
code absent from the excerpt) returns the pagination window of the
matching tiers together with the total matching count before windowing. -/
def subscription_tier_search (db : DB) (actorOwner : Bool) (type : Option Nat)
    (organization : Org) (repository : Option Repo)
    (direct_organization : Bool) (include_archived : Bool)
    (pagination : Pagination) : Eff (List Tier × Nat) :=
  (Except.ok
    (paginate pagination
      (tier_search_matching db actorOwner type organization repository
        direct_organization include_archived),
     (tier_search_matching db actorOwner type organization repository
        direct_organization include_archived).length),
   [Op.tierSearch])

/-- Modelled from the spec: scope filter of subscription search and
aggregation.  A subscription matches through its tier: the tier must
exist and satisfy the organization, repository, direct-organization and
type restrictions, each unrestricted when absent. -/
def sub_scope_match (db : DB) (type : Option Nat) (organization : Option Org)
    (repository : Option Repo) (direct_organization : Bool) (s : Subscription) : Bool :=
  match db.tiers.find? (fun t => t.id == s.tier_id) with
  | none => false
  | some t =>
    (match organization with
     | none => true
     | some o => t.organization_id == o.id)
      && (match repository with
          | none => true
          | some r => t.repository_id == some r.id)
      && (!direct_organization || !t.inherited)
      && (match type with
          | none => true
          | some ty => t.type == ty)

/-- Modelled from the spec: the filter of the subscription search,
adding the tier-id and subscriber filters to the scope filter. -/
def subscription_match (db : DB) (type : Option Nat) (organization : Option Org)
    (repository : Option Repo) (direct_organization : Bool)
    (subscription_tier_id : Option Nat) (subscriber_user_id : Option Nat)
    (s : Subscription) : Bool :=
  sub_scope_match db type organization repository direct_organization s
    && (match subscription_tier_id with
        | none => true
        | some i => s.tier_id == i)
    && (match subscriber_user_id with
        | none => true
        | some u => s.subscriber_user_id == u)

/-- Modelled from the spec: `subscription_service.search` (service code
absent from the excerpt) returns the pagination window of the matching
subscriptions and the total matching count; the actor and sorting are
passed through to the collaborator. -/
def subscription_search (db : DB) (user : User) (type : Option Nat)
    (organization : Option Org) (repository : Option Repo)
    (direct_organization : Bool) (subscription_tier_id : Option Nat)
    (subscriber_user_id : Option Nat) (pagination : Pagination)
    (sorting : List Nat) : Eff (List Subscription × Nat) :=
  (Except.ok
    (paginate pagination
      (db.subs.filter
        (subscription_match db type organization repository
          direct_organization subscription_tier_id subscriber_user_id)),
     (db.subs.filter
        (subscription_match db type organization repository
          direct_organization subscription_tier_id subscriber_user_id)).length),
   [Op.subscriptionSearch (organization.map (fun o => o.id))
      (repository.map (fun r => r.id))])

/-- One aggregated entry of the subscriptions summary. -/
structure PeriodSummary where
  period : Nat
  subscriptions_count : Nat
  mrr : Nat
deriving DecidableEq

/-- Whether a subscription is active during period `p`. -/
def sub_active_in (p : Nat) (s : Subscription) : Bool :=
  decide (s.startp ≤ p) && decide (p ≤ s.endp)

/-- Modelled from the spec: the activity filter of one summary period —
the subscription matches the scope and filters and is active during the
period. -/
def period_sub_match (db : DB) (type : Option Nat) (organization : Org)
    (repository : Option Repo) (direct_organization : Bool)
    (subscription_tier_id : Option Nat) (p : Nat) (s : Subscription) : Bool :=
  sub_scope_match db type (some organization) repository direct_organization s
    && (match subscription_tier_id with
        | none => true
        | some i => s.tier_id == i)
    && sub_active_in p s

/-- Modelled from the spec: the aggregated metrics of one period — the
count of matching active subscriptions and their summed revenue, both
zero when no subscription matches. -/
def period_summary (db : DB) (type : Option Nat) (organization : Org)
    (repository : Option Repo) (direct_organization : Bool)
    (subscription_tier_id : Option Nat) (p : Nat) : PeriodSummary :=
  ⟨p,
   (db.subs.filter
     (period_sub_match db type organization repository direct_organization
       subscription_tier_id p)).length,
   ((db.subs.filter
     (period_sub_match db type organization repository direct_organization
       subscription_tier_id p)).map (fun s => s.price)).sum⟩

/-- Modelled from the spec: `subscription_service.get_periods_summary`
(service code absent from the excerpt) partitions `[start_date, end_date]`
into unit periods and computes one summary per period; a start date after
the end date fails with a validation (BadRequest-class) error before any
aggregation query is issued. -/
def get_periods_summary (db : DB) (user : User) (start_date end_date : Nat)
    (organization : Org) (repository : Option Repo)
    (direct_organization : Bool) (type : Option Nat)
    (subscription_tier_id : Option Nat) : Eff (List PeriodSummary) :=
  if end_date < start_date then
    effThrow (Err.badRequest "start_date must be before or equal to end_date")
  else
    (Except.ok
      ((List.range (end_date + 1 - start_date)).map
        (fun i =>
          period_summary db type organization repository direct_organization
            subscription_tier_id (start_date + i))),
     [Op.periodsSummary])

/-- The feature-flag gate guarding the whole router
(`is_feature_flag_enabled` in endpoints.py): when a posthog client is
configured and reports the "subscriptions" flag disabled for the
authenticated user, the request fails with HTTP 403; otherwise it
passes.  The client is embedded as an optional `feature_enabled`
predicate. -/
def is_feature_flag_enabled (client : Option (String → Nat → Bool))
    (user : User) : Except Err Unit :=
  match client with
  | none => Except.ok ()
  | some c =>
    if c "subscriptions" user.posthog_distinct_id then Except.ok ()
    else Except.error (Err.http 403 "You do not have access to this feature.")

/-- The handler of GET /subscriptions/tiers/search
(`search_subscription_tiers` in endpoints.py): resolves the organization
(NotFound when absent), then the optional repository scoped to it
(NotFound when absent), then delegates to the tier search. -/
def search_subscription_tiers (db : DB) (pagination : Pagination)
    (organization_name : String) (repository_name : Option String)
    (direct_organization : Bool) (include_archived : Bool)
    (type : Option Nat) (platform : Nat) (actorOwner : Bool) :
    Eff (List Tier × Nat) :=
  effBind (organization_get_by_name db platform organization_name)
    (fun organization =>
      match organization with
      | none => effThrow (Err.resourceNotFound "Organization not found")
      | some organization =>
        effBind
          (match repository_name with
           | none => effPure none
           | some rname =>
             effBind (repository_get_by_org_and_name db organization.id rname)
               (fun repository =>
                 match repository with
                 | none => effThrow (Err.resourceNotFound "Repository not found")
                 | some repository => effPure (some repository)))
          (fun repository =>
            subscription_tier_search db actorOwner type organization repository
              direct_organization include_archived pagination))

/-- The handler of GET /subscriptions/subscriptions/summary
(`get_subscriptions_summary` in endpoints.py): resolves the organization
(NotFound when absent), then the optional repository scoped to it
(NotFound when absent), then delegates to the periods summary. -/
def get_subscriptions_summary (db : DB) (user : User)
    (organization_name : String) (repository_name : Option String)
    (platform : Nat) (start_date end_date : Nat)
    (direct_organization : Bool) (type : Option Nat)
    (subscription_tier_id : Option Nat) : Eff (List PeriodSummary) :=
  effBind (organization_get_by_name db platform organization_name)
    (fun organization =>
      match organization with
      | none => effThrow (Err.resourceNotFound "Organization not found")
      | some organization =>
        effBind
          (match repository_name with
           | none => effPure none
           | some rname =>
             effBind (repository_get_by_org_and_name db organization.id rname)
               (fun repository =>
                 match repository with
                 | none => effThrow (Err.resourceNotFound "Repository not found")
                 | some repository => effPure (some repository)))
          (fun repository =>
            get_periods_summary db user start_date end_date organization
              repository direct_organization type subscription_tier_id))

/-- The handler of GET /subscriptions/subscriptions/search
(`search_subscriptions` in endpoints.py): the organization name/platform
pair is optional; when present the organization is resolved (NotFound
when absent).  A repository name without a resolved organization is a
BadRequest; otherwise the optional repository is resolved scoped to the
organization (NotFound when absent).  The handler then delegates to the
subscription search with the — possibly absent — scope. -/
def search_subscriptions (db : DB) (user : User) (pagination : Pagination)
    (sorting : List Nat)
    (organization_name_platform : Option (String × Nat))
    (repository_name : Option String) (direct_organization : Bool)
    (type : Option Nat) (subscription_tier_id : Option Nat)
    (subscriber_user_id : Option Nat) : Eff (List Subscription × Nat) :=
  effBind
    (match organization_name_platform with
     | none => effPure none
     | some (organization_name, platform) =>
       effBind (organization_get_by_name db platform organization_name)
         (fun organization =>
           match organization with
           | none => effThrow (Err.resourceNotFound "Organization not found")
           | some organization => effPure (some organization)))
    (fun organization =>
      effBind
        (match repository_name with
         | none => effPure none
         | some rname =>
           match organization with
           | none =>
             effThrow (Err.badRequest
               "organization_name and platform are required when repository_name is set")
           | some organization =>
             effBind (repository_get_by_org_and_name db organization.id rname)
               (fun repository =>
                 match repository with
                 | none => effThrow (Err.resourceNotFound "Repository not found")
                 | some repository => effPure (some repository)))
        (fun repository =>
          subscription_search db user type organization repository
            direct_organization subscription_tier_id subscriber_user_id
            pagination sorting))

/-- The organization "acme" on platform 0 of the specification's example. -/
def acmeOrg : Org := ⟨1, 0, "acme"⟩

/-- A repository belonging to the acme organization. -/
def libRepo : Repo := ⟨5, 1, "lib"⟩

/-- A non-archived tier owned directly by the acme organization. -/
def basicTier : Tier := ⟨10, 1, none, 0, false, false⟩

/-- An archived tier of the acme organization. -/
def archivedTier : Tier := ⟨11, 1, none, 0, true, false⟩

/-- A tier inherited from a default scope rather than owned directly. -/
def inheritedTier : Tier := ⟨12, 1, none, 0, false, true⟩

/-- A subscription to the basic tier, active over periods 0 to 3. -/
def basicSubscription : Subscription := ⟨100, 7, 10, 0, 3, 500⟩

/-- An authenticated user for concrete instances. -/
def aliceUser : User := ⟨1, 1⟩

/-- The snapshot of the specification's example: acme with two tiers, one
archived. -/
def dbAcme : DB := ⟨[acmeOrg], [libRepo], [basicTier, archivedTier], [basicSubscription]⟩

/-- A snapshot holding one direct and one inherited tier of acme. -/
def dbScope : DB := ⟨[acmeOrg], [libRepo], [basicTier, inheritedTier], [basicSubscription]⟩

/-- C1: on the subscriptions search endpoint, a request supplying a
repository name but no organization name/platform pair fails with a
BadRequest-class error and an empty operation trace: no repository lookup
and no search query is issued. -/
theorem search_subscriptions_requires_org_for_repo
    (db : DB) (user : User) (pagination : Pagination) (sorting : List Nat)
    (rname : String) (direct_organization : Bool) (type : Option Nat)
    (subscription_tier_id subscriber_user_id : Option Nat) :
    search_subscriptions db user pagination sorting none (some rname)
        direct_organization type subscription_tier_id subscriber_user_id
      = (Except.error (Err.badRequest
          "organization_name and platform are required when repository_name is set"),
         []) := rfl

/-- C10: on the subscriptions search endpoint, a request supplying neither
an organization name/platform pair nor a repository name does not fail:
the handler invokes the subscription search with an absent organization
and absent repository — an entirely unrestricted scope. -/
theorem unrestricted_subscription_search
    (db : DB) (user : User) (pagination : Pagination) (sorting : List Nat)
    (direct_organization : Bool) (type : Option Nat)
    (subscription_tier_id subscriber_user_id : Option Nat) :
    search_subscriptions db user pagination sorting none none
        direct_organization type subscription_tier_id subscriber_user_id
      = (Except.ok
          (paginate pagination
            (db.subs.filter
              (subscription_match db type none none direct_organization
                subscription_tier_id subscriber_user_id)),
           (db.subs.filter
              (subscription_match db type none none direct_organization
                subscription_tier_id subscriber_user_id)).length),
         [Op.subscriptionSearch none none]) := rfl

/-- C5: for the acme organization on platform 0 holding two tiers of which
one is archived, an unauthenticated tier search with no type filter
returns exactly the non-archived tier with total count 1. -/
theorem acme_archived_tier_hidden :
    search_subscription_tiers dbAcme ⟨10, 0⟩ "acme" none true false none 0 false
      = (Except.ok ([basicTier], 1), [Op.orgLookup 0 "acme", Op.tierSearch]) := by
  rfl

/-- C9: the feature-flag gate raises the 403 error exactly when a
feature-flag client is configured and reports the "subscriptions" flag
disabled for the authenticated user; with no client configured every
authenticated request passes the gate. -/
theorem feature_flag_gate (client : Option (String → Nat → Bool)) (user : User) :
    (is_feature_flag_enabled client user
        = Except.error (Err.http 403 "You do not have access to this feature.")
      ↔ ∃ c, client = some c ∧ c "subscriptions" user.posthog_distinct_id = false)
    ∧ (client = none → is_feature_flag_enabled client user = Except.ok ()) := by
  constructor
  · constructor
    · intro h
      cases client with
      | none => simp [is_feature_flag_enabled] at h
      | some c =>
        refine ⟨c, rfl, ?_⟩
        by_cases hc : c "subscriptions" user.posthog_distinct_id = true
        · simp [is_feature_flag_enabled, hc] at h
        · simp at hc
          exact hc
    · rintro ⟨c, rfl, hc⟩
      simp [is_feature_flag_enabled, hc]
  · rintro rfl
    rfl

/-- Witness for C9 at concrete inputs: no client passes; a client
reporting the flag disabled yields the 403 error. -/
theorem feature_flag_gate_witness :
    is_feature_flag_enabled none ⟨1, 1⟩ = Except.ok ()
    ∧ is_feature_flag_enabled (some (fun f d => false)) ⟨1, 1⟩
        = Except.error (Err.http 403 "You do not have access to this feature.") :=
  ⟨(feature_flag_gate none ⟨1, 1⟩).2 rfl,
   (feature_flag_gate (some (fun f d => false)) ⟨1, 1⟩).1.mpr
     ⟨fun f d => false, rfl, rfl⟩⟩

/-- C4: a call to the periods-summary operation whose start date is
strictly after its end date fails with a validation (BadRequest-class)
error and an empty operation trace: no period summaries are computed. -/
theorem summary_rejects_inverted_range
    (db : DB) (user : User) (start_date end_date : Nat) (organization : Org)
    (repository : Option Repo) (direct_organization : Bool)
    (type : Option Nat) (subscription_tier_id : Option Nat)
    (h : end_date < start_date) :
    get_periods_summary db user start_date end_date organization repository
        direct_organization type subscription_tier_id
      = (Except.error (Err.badRequest
          "start_date must be before or equal to end_date"), []) := by
  simp [get_periods_summary, effThrow, h]

/-- Witness for C4: the summary over the inverted range from 2 to 1 fails
with the validation error. -/
theorem summary_rejects_inverted_range_witness :
    get_periods_summary dbAcme aliceUser 2 1 acmeOrg none true none none
      = (Except.error (Err.badRequest
          "start_date must be before or equal to end_date"), []) :=
  summary_rejects_inverted_range dbAcme aliceUser 2 1 acmeOrg none true none
    none (by decide)

/-- C2: when no organization matches the given (platform, name) pair, both
the tier search handler and the subscriptions summary handler fail with
NotFound after the organization lookup alone: the operation trace contains
no tier search and no periods summary, so the search and aggregation
services are never invoked. -/
theorem org_not_found_short_circuits
    (db : DB) (user : User) (pagination : Pagination) (oname : String)
    (rname : Option String) (direct_organization include_archived : Bool)
    (type : Option Nat) (platform : Nat) (actorOwner : Bool)
    (start_date end_date : Nat) (subscription_tier_id : Option Nat)
    (h : ∀ o ∈ db.orgs, ¬(o.platform = platform ∧ o.name = oname)) :
    search_subscription_tiers db pagination oname rname direct_organization
        include_archived type platform actorOwner
      = (Except.error (Err.resourceNotFound "Organization not found"),
         [Op.orgLookup platform oname])
    ∧ get_subscriptions_summary db user oname rname platform start_date
        end_date direct_organization type subscription_tier_id
      = (Except.error (Err.resourceNotFound "Organization not found"),
         [Op.orgLookup platform oname]) := by
  have horg : org_lookup db platform oname = none := by
    rw [org_lookup, List.find?_eq_none]
    intro o ho
    simpa using h o ho
  constructor
  · simp [search_subscription_tiers, organization_get_by_name, effBind,
      horg, effThrow]
  · simp [get_subscriptions_summary, organization_get_by_name, effBind,
      horg, effThrow]

/-- Witness for C2: looking up the absent organization "ghost" makes both
handlers fail with NotFound after the organization lookup alone. -/
theorem org_not_found_short_circuits_witness :
    search_subscription_tiers dbAcme ⟨10, 0⟩ "ghost" none true false none 0 false
      = (Except.error (Err.resourceNotFound "Organization not found"),
         [Op.orgLookup 0 "ghost"])
    ∧ get_subscriptions_summary dbAcme aliceUser "ghost" none 0 0 1 true none none
      = (Except.error (Err.resourceNotFound "Organization not found"),
         [Op.orgLookup 0 "ghost"]) :=
  org_not_found_short_circuits dbAcme aliceUser ⟨10, 0⟩ "ghost" none true
    false none 0 false 0 1 none (by decide)

/-- C3: the repository lookup is scoped to the resolved organization: a
returned repository always carries the resolved organization's identifier,
and when no repository of that name exists inside the organization —
including when one of that name belongs to a different organization — the
tier search handler fails with NotFound. -/
theorem repo_lookup_scoped_to_org :
    (∀ (db : DB) (organization_id : Nat) (name : String) (r : Repo),
      repo_lookup db organization_id name = some r →
        r.organization_id = organization_id)
    ∧ ∀ (db : DB) (pagination : Pagination) (oname rname : String)
        (direct_organization include_archived : Bool) (type : Option Nat)
        (platform : Nat) (actorOwner : Bool) (o : Org),
        org_lookup db platform oname = some o →
        repo_lookup db o.id rname = none →
        search_subscription_tiers db pagination oname (some rname)
            direct_organization include_archived type platform actorOwner
          = (Except.error (Err.resourceNotFound "Repository not found"),
             [Op.orgLookup platform oname, Op.repoLookup o.id rname]) := by
  constructor
  · intro db organization_id name r h
    have hp := List.find?_some h
    simp only [Bool.and_eq_true, beq_iff_eq] at hp
    exact hp.1
  · intro db pagination oname rname direct_organization include_archived
      type platform actorOwner o horg hrepo
    simp [search_subscription_tiers, organization_get_by_name,
      repository_get_by_org_and_name, effBind, horg, hrepo, effThrow]

/-- Witness for C3: the repository "lib" looked up inside organization 1
carries organization identifier 1, and looking up the absent repository
"ghost" inside acme makes the tier search handler fail with NotFound. -/
theorem repo_lookup_scoped_to_org_witness :
    libRepo.organization_id = 1
    ∧ search_subscription_tiers dbAcme ⟨10, 0⟩ "acme" (some "ghost") true
        false none 0 false
      = (Except.error (Err.resourceNotFound "Repository not found"),
         [Op.orgLookup 0 "acme", Op.repoLookup acmeOrg.id "ghost"]) :=
  ⟨repo_lookup_scoped_to_org.1 dbAcme 1 "lib" libRepo (by decide),
   repo_lookup_scoped_to_org.2 dbAcme ⟨10, 0⟩ "acme" "ghost" true false none
     0 false acmeOrg (by decide) (by decide)⟩

/-- A tier matched under `direct_organization = true` is not inherited. -/
theorem tier_match_direct_not_inherited
    {actorOwner : Bool} {type : Option Nat} {organization : Org}
    {repository : Option Repo} {include_archived : Bool} {t : Tier}
    (h : tier_match actorOwner type organization repository true
      include_archived t = true) : t.inherited = false := by
  simp only [tier_match, Bool.and_eq_true, Bool.not_true, Bool.false_or,
    Bool.not_eq_true'] at h
  tauto

/-- A tier matched under `direct_organization = true` is also matched
under `direct_organization = false`, the other arguments unchanged. -/
theorem tier_match_direct_mono
    {actorOwner : Bool} {type : Option Nat} {organization : Org}
    {repository : Option Repo} {include_archived : Bool} {t : Tier}
    (h : tier_match actorOwner type organization repository true
      include_archived t = true) :
    tier_match actorOwner type organization repository false
      include_archived t = true := by
  simp only [tier_match, Bool.and_eq_true, Bool.not_true, Bool.false_or,
    Bool.not_false, Bool.true_or, Bool.not_eq_true'] at h ⊢
  tauto

/-- C6: the tier search with `direct_organization = true` returns its
pagination window over the direct match list; every tier it returns is
non-inherited, and the direct match list is, for identical other filters,
a subset of the `direct_organization = false` match list. -/
theorem direct_search_excludes_inherited
    (db : DB) (actorOwner : Bool) (type : Option Nat) (organization : Org)
    (repository : Option Repo) (include_archived : Bool)
    (pagination : Pagination) :
    subscription_tier_search db actorOwner type organization repository true
        include_archived pagination
      = (Except.ok
          (paginate pagination
            (tier_search_matching db actorOwner type organization repository
              true include_archived),
           (tier_search_matching db actorOwner type organization repository
              true include_archived).length),
         [Op.tierSearch])
    ∧ (∀ t ∈ paginate pagination
          (tier_search_matching db actorOwner type organization repository
            true include_archived), t.inherited = false)
    ∧ tier_search_matching db actorOwner type organization repository true
        include_archived
      ⊆ tier_search_matching db actorOwner type organization repository false
        include_archived := by
  refine ⟨rfl, ?_, ?_⟩
  · intro t ht
    have ht2 : t ∈ tier_search_matching db actorOwner type organization
        repository true include_archived :=
      List.drop_subset _ _ (List.take_subset _ _ ht)
    exact tier_match_direct_not_inherited
      (List.mem_filter.mp ht2).2
  · intro t ht
    have hm := List.mem_filter.mp ht
    exact List.mem_filter.mpr ⟨hm.1, tier_match_direct_mono hm.2⟩

/-- Witness for C6: in the scope snapshot the direct search returns the
direct tier, which is non-inherited and also belongs to the inclusive
match list. -/
theorem direct_search_excludes_inherited_witness :
    basicTier.inherited = false
    ∧ basicTier ∈ tier_search_matching dbScope false none acmeOrg none false false :=
  ⟨(direct_search_excludes_inherited dbScope false none acmeOrg none false
      ⟨10, 0⟩).2.1 basicTier (by decide),
   (direct_search_excludes_inherited dbScope false none acmeOrg none false
      ⟨10, 0⟩).2.2 (by decide)⟩

/-- C7: the tier search returns, beside the pagination window, the total
matching count before windowing; for a page size `L`, page `N` and page
`N + 1` are the two consecutive `L`-sized segments of the unpaginated
match list — their in-order concatenation is the `2·L`-sized window at
offset `N·L` of that list — and, the snapshot holding no duplicate tiers,
the two pages are disjoint. -/
theorem search_pagination_stable
    (db : DB) (actorOwner : Bool) (type : Option Nat) (organization : Org)
    (repository : Option Repo) (direct_organization include_archived : Bool)
    (pagination : Pagination) (L N : Nat) :
    subscription_tier_search db actorOwner type organization repository
        direct_organization include_archived pagination
      = (Except.ok
          (paginate pagination
            (tier_search_matching db actorOwner type organization repository
              direct_organization include_archived),
           (tier_search_matching db actorOwner type organization repository
              direct_organization include_archived).length),
         [Op.tierSearch])
    ∧ paginate ⟨L, N * L⟩
        (tier_search_matching db actorOwner type organization repository
          direct_organization include_archived)
      ++ paginate ⟨L, (N + 1) * L⟩
        (tier_search_matching db actorOwner type organization repository
          direct_organization include_archived)
      = ((tier_search_matching db actorOwner type organization repository
          direct_organization include_archived).drop (N * L)).take (L + L)
    ∧ (db.tiers.Nodup →
        (paginate ⟨L, N * L⟩
          (tier_search_matching db actorOwner type organization repository
            direct_organization include_archived)).Disjoint
        (paginate ⟨L, (N + 1) * L⟩
          (tier_search_matching db actorOwner type organization repository
            direct_organization include_archived))) := by
  have h1 : (N + 1) * L = N * L + L := by ring
  refine ⟨rfl, ?_, ?_⟩
  · simp only [paginate]
    rw [List.take_add, List.drop_drop, h1]
  · intro hnd
    have hM : (tier_search_matching db actorOwner type organization repository
        direct_organization include_archived).Nodup :=
      (List.filter_sublist _).nodup hnd
    have hM2 : ((tier_search_matching db actorOwner type organization repository
        direct_organization include_archived).drop (N * L)).Nodup :=
      (List.drop_sublist _ _).nodup hM
    simp only [paginate]
    rw [h1, ← List.drop_drop]
    exact List.disjoint_of_subset_right (List.take_subset _ _)
      (List.disjoint_take_drop hM2 (Nat.le_refl L))

/-- Witness for C7 at the scope snapshot with page size 1: the count
equals the full match length, the two first pages concatenate to the
two-element window, and — the snapshot having no duplicate tiers — the
pages are disjoint. -/
theorem search_pagination_stable_witness :
    subscription_tier_search dbScope false none acmeOrg none false false
        ⟨1, 0⟩
      = (Except.ok
          (paginate ⟨1, 0⟩
            (tier_search_matching dbScope false none acmeOrg none false false),
           (tier_search_matching dbScope false none acmeOrg none false
              false).length),
         [Op.tierSearch])
    ∧ paginate ⟨1, 0 * 1⟩
        (tier_search_matching dbScope false none acmeOrg none false false)
      ++ paginate ⟨1, (0 + 1) * 1⟩
        (tier_search_matching dbScope false none acmeOrg none false false)
      = ((tier_search_matching dbScope false none acmeOrg none false
          false).drop (0 * 1)).take (1 + 1)
    ∧ (paginate ⟨1, 0 * 1⟩
        (tier_search_matching dbScope false none acmeOrg none false
          false)).Disjoint
      (paginate ⟨1, (0 + 1) * 1⟩
        (tier_search_matching dbScope false none acmeOrg none false false)) :=
  ⟨(search_pagination_stable dbScope false none acmeOrg none false false
      ⟨1, 0⟩ 1 0).1,
   (search_pagination_stable dbScope false none acmeOrg none false false
      ⟨1, 0⟩ 1 0).2.1,
   (search_pagination_stable dbScope false none acmeOrg none false false
      ⟨1, 0⟩ 1 0).2.2 (by decide)⟩

/-- C8: over a valid date range the periods summary returns exactly one
entry per period of `[start_date, end_date]`, in contiguous order with no
gaps — the entries' periods are `start_date, start_date + 1, …,
end_date` — and a period in range with no matching subscription activity
still appears, with zero count and zero revenue. -/
theorem summary_contiguous_zero_filled
    (db : DB) (user : User) (start_date end_date : Nat) (organization : Org)
    (repository : Option Repo) (direct_organization : Bool)
    (type : Option Nat) (subscription_tier_id : Option Nat)
    (h : start_date ≤ end_date) :
    ∃ ps : List PeriodSummary,
      get_periods_summary db user start_date end_date organization repository
          direct_organization type subscription_tier_id
        = (Except.ok ps, [Op.periodsSummary])
      ∧ ps.length = end_date + 1 - start_date
      ∧ ps.map (fun x => x.period)
          = (List.range (end_date + 1 - start_date)).map
              (fun i => start_date + i)
      ∧ ∀ p, start_date ≤ p → p ≤ end_date →
          (∀ s ∈ db.subs,
            period_sub_match db type organization repository
              direct_organization subscription_tier_id p s = false) →
          (⟨p, 0, 0⟩ : PeriodSummary) ∈ ps := by
  refine ⟨(List.range (end_date + 1 - start_date)).map
      (fun i =>
        period_summary db type organization repository direct_organization
          subscription_tier_id (start_date + i)), ?_, ?_, ?_, ?_⟩
  · simp [get_periods_summary, Nat.not_lt.mpr h]
  · simp
  · simp [period_summary]
  · intro p hsp hpe hnone
    have hf : db.subs.filter
        (period_sub_match db type organization repository
          direct_organization subscription_tier_id p) = [] := by
      rw [List.filter_eq_nil_iff]
      intro a ha
      simp [hnone a ha]
    have hzero : period_summary db type organization repository
        direct_organization subscription_tier_id p
          = (⟨p, 0, 0⟩ : PeriodSummary) := by
      simp [period_summary, hf]
    rw [← hzero]
    refine List.mem_map.mpr ⟨p - start_date, List.mem_range.mpr (by omega), ?_⟩
    rw [Nat.add_sub_cancel' hsp]

/-- Witness for C8: the summary of the acme snapshot over periods 0 to 1
has one contiguous entry per period, with zero-filled entries for inactive
periods. -/
theorem summary_contiguous_zero_filled_witness :
    ∃ ps : List PeriodSummary,
      get_periods_summary dbAcme aliceUser 0 1 acmeOrg none true none none
        = (Except.ok ps, [Op.periodsSummary])
      ∧ ps.length = 1 + 1 - 0
      ∧ ps.map (fun x => x.period)
          = (List.range (1 + 1 - 0)).map (fun i => 0 + i)
      ∧ ∀ p, 0 ≤ p → p ≤ 1 →
          (∀ s ∈ dbAcme.subs,
            period_sub_match dbAcme none acmeOrg none true none p s
              = false) →
          (⟨p, 0, 0⟩ : PeriodSummary) ∈ ps :=
  summary_contiguous_zero_filled dbAcme aliceUser 0 1 acmeOrg none true none
    none (by decide)
